import Mathlib

/-!
Shallow embedding of the core mathematics of the lp-monitor-app repository
(Uniswap v3 LP position monitor): tick/sqrt-price conversion (`TickMath`),
band calculation (`BandCalculator`), fee accounting (`FeeCalculator`,
`EnhancedFeeCalculator`) and the rebalance decision engine
(`RebalanceStrategy`), together with theorems settling the specification
claims about them.

Modelling conventions:
* JavaScript `bigint` values that are non-negative in every reachable state
  (sqrt prices, liquidity, token amounts) are modelled as `Nat`; `bigint`
  division truncates toward zero, which on non-negative operands coincides
  with `Nat` division.
* JavaScript `number` values used for ticks/decimals are modelled as `Int`
  (they are integers in every use relevant to the claims); `Math.floor(a/b)`
  on integers is `Int.fdiv a b` and `Math.ceil(a/b)` is `-Int.fdiv (-a) b`.
* JavaScript `number` values used for USD amounts, prices, hours and
  percentages are modelled as exact rationals (`ℚ`); the claims proved
  about them concern exactly representable values.
* A function that can `throw` is modelled with `Option`, `none` standing
  for the thrown error.
-/

namespace TickMath

def Q96 : Nat := 2 ^ 96

def Q128 : Nat := 2 ^ 128

def MIN_TICK : Int := -887272

def MAX_TICK : Int := 887272

/-- Unchecked core of `TickMath.getSqrtPriceX96FromTick` (the computation
after the bounds check).  The source guards every magic-constant
multiplication with `absTick & 0xN !== 0`; in JavaScript `!==` binds
tighter than `&`, so each guard evaluates as `absTick & (0xN !== 0)` =
`absTick & 1`, i.e. it tests whether `absTick` is odd — not bit N of
`absTick`.  The embedding reproduces this faithfully: every step is
conditional on `absTick % 2 = 1`.  (`>> 128n` on non-negative bigints is
division by `2 ^ 128`.) -/
def sqrtRatioAtTick (tick : Int) : Nat :=
  let absTick : Nat := tick.natAbs
  let odd : Bool := absTick % 2 == 1
  let r : Nat := if odd then 0xfffcb933bd6fad37aa2d162d1a594001 else 0x100000000000000000000000000000000
  let r := if odd then r * 0xfff97272373d413259a46990580e213a / Q128 else r
  let r := if odd then r * 0xfff2e50f5f656932ef12357cf3c7fdcc / Q128 else r
  let r := if odd then r * 0xffe5caca7e10e4e61c3624eaa0941cd0 / Q128 else r
  let r := if odd then r * 0xffcb9843d60f6159c9db58835c926644 / Q128 else r
  let r := if odd then r * 0xff973b41fa98c081472e6896dfb254c0 / Q128 else r
  let r := if odd then r * 0xff2ea16466c96a3843ec78b326b52861 / Q128 else r
  let r := if odd then r * 0xfe5dee046a99a2a811c461f1969c3053 / Q128 else r
  let r := if odd then r * 0xfcbe86c7900a88aedcffc83b479aa3a4 / Q128 else r
  let r := if odd then r * 0xf987a7253ac413176f2b074cf7815e54 / Q128 else r
  let r := if odd then r * 0xf3392b0822b70005940c7a398e4b70f3 / Q128 else r
  let r := if odd then r * 0xe7159475a2c29b7443b29c7fa6e889d9 / Q128 else r
  let r := if odd then r * 0xd097f3bdfd2022b8845ad8f792aa5825 / Q128 else r
  let r := if odd then r * 0xa9f746462d870fdf8a65dc1f90e061e5 / Q128 else r
  let r := if odd then r * 0x70d869a156d2a1b890bb3df62baf32f7 / Q128 else r
  let r := if odd then r * 0x31be135f97d08fd981231505542fcfa6 / Q128 else r
  let r := if odd then r * 0x9aa508b5b7a84e1c677de54f3e99bc9 / Q128 else r
  let r := if odd then r * 0x5d6af8dedb81196699c329225ee604 / Q128 else r
  let r := if odd then r * 0x2216e584f5fa1ea926041bedfe98 / Q128 else r
  let r := if odd then r * 0x48a170391f7dc42444e8fa2 / Q128 else r
  let r := if tick < 0 then (2 ^ 256 - 1) / r else r
  r / 2 ^ 32

/-- Embedding of `TickMath.getSqrtPriceX96FromTick`: bounds check, then the
core computation (`none` models the thrown range error; the memoization
cache is behaviourally transparent and is not modelled). -/
def getSqrtPriceX96FromTick (tick : Int) : Option Nat :=
  if tick < MIN_TICK ∨ tick > MAX_TICK then none
  else some (sqrtRatioAtTick tick)

/-- Embedding of `TickMath.tickToPrice`.  The source computes
`Math.pow(1.0001, tick)` in binary floating point; the value is idealized
here as the exact rational `(10001/10000) ^ tick` — the claims proved about
this function concern only its failure behaviour, which is exact. -/
def tickToPrice (tick : Int) : Option ℚ :=
  if tick < MIN_TICK ∨ tick > MAX_TICK then none
  else some ((10001 / 10000 : ℚ) ^ tick)

/-- Binary-search loop of `TickMath.getTickFromSqrtPriceX96`, with explicit
fuel (the loop shrinks `tickHigh - tickLow` every iteration, so any fuel
at least `MAX_TICK - MIN_TICK + 1` makes the fuel case unreachable).
`Math.floor((tickLow + tickHigh) / 2)` on integers is `Int.fdiv`.  The
probe `getSqrtPriceX96FromTick tickMid` always has `tickMid` in bounds,
so it equals the unchecked `sqrtRatioAtTick tickMid`. -/
def tickSearchLoop : Nat → Int → Int → Nat → Int
  | 0, tickLow, _, _ => tickLow
  | fuel + 1, tickLow, tickHigh, x =>
    if tickLow < tickHigh then
      let tickMid := Int.fdiv (tickLow + tickHigh) 2
      if sqrtRatioAtTick tickMid ≤ x then tickSearchLoop fuel (tickMid + 1) tickHigh x
      else tickSearchLoop fuel tickLow tickMid x
    else tickLow

/-- Embedding of `TickMath.getTickFromSqrtPriceX96`: input bounds are the
forward function's values at `MIN_TICK`/`MAX_TICK`; exact `Q96` returns
tick 0; otherwise binary search over the tick range, returning
`tickLow - 1`. -/
def getTickFromSqrtPriceX96 (x : Nat) : Option Int :=
  let minSqrtPrice := sqrtRatioAtTick MIN_TICK
  let maxSqrtPrice := sqrtRatioAtTick MAX_TICK
  if x < minSqrtPrice ∨ x > maxSqrtPrice then none
  else if x == Q96 then some 0
  else some (tickSearchLoop 1774545 MIN_TICK MAX_TICK x - 1)

/-- Embedding of `TickMath.getAmount0ForLiquidity` (arguments sorted, then
`liquidity * Q96 * (b - a) / (b * a)` with truncating division). -/
def getAmount0ForLiquidity (sqrtRatioAX96 sqrtRatioBX96 liquidity : Nat) : Nat :=
  let a := min sqrtRatioAX96 sqrtRatioBX96
  let b := max sqrtRatioAX96 sqrtRatioBX96
  liquidity * Q96 * (b - a) / (b * a)

/-- Embedding of `TickMath.getAmount1ForLiquidity` (arguments sorted, then
`liquidity * (b - a) / Q96` with truncating division). -/
def getAmount1ForLiquidity (sqrtRatioAX96 sqrtRatioBX96 liquidity : Nat) : Nat :=
  let a := min sqrtRatioAX96 sqrtRatioBX96
  let b := max sqrtRatioAX96 sqrtRatioBX96
  liquidity * (b - a) / Q96

end TickMath

namespace BandCalculator

/-- Output value object of `BandCalculator.calculateBand`. -/
structure Band where
  tickLower : Int
  tickUpper : Int
deriving DecidableEq

/-- Embedding of `BandCalculator.calculateBand`: validates `basisPoints`
and `tickSpacing` (the accepted spacings are `[1, 10, 60, 200]`), computes
`halfBand = Math.floor(basisPoints / 2)`, aligns the raw lower bound down
and the raw upper bound up to multiples of `tickSpacing`, and rejects an
empty range.  Note the source never checks `currentTick` against the tick
bounds. -/
def calculateBand (currentTick basisPoints tickSpacing : Int) : Option Band :=
  if basisPoints ≤ 0 then none
  else if ¬(tickSpacing = 1 ∨ tickSpacing = 10 ∨ tickSpacing = 60 ∨ tickSpacing = 200) then
    none
  else
    let halfBand := Int.fdiv basisPoints 2
    let rawLower := currentTick - halfBand
    let rawUpper := currentTick + halfBand
    let tickLower := Int.fdiv rawLower tickSpacing * tickSpacing
    let tickUpper := (-Int.fdiv (-rawUpper) tickSpacing) * tickSpacing
    if tickLower ≥ tickUpper then none
    else some ⟨tickLower, tickUpper⟩

/-- Embedding of `BandCalculator.isInRange` (lower inclusive, upper
exclusive). -/
def isInRange (currentTick tickLower tickUpper : Int) : Bool :=
  currentTick ≥ tickLower && currentTick < tickUpper

end BandCalculator

namespace FeeCalculator

/-- Result object of `FeeCalculator.calculateUncollectedFees`. -/
structure UncollectedFees where
  token0 : ℚ
  token1 : ℚ
  totalUsd : ℚ
deriving DecidableEq

/-- Embedding of `FeeCalculator.calculateUncollectedFees`: validates the
token decimal counts against `[0, 18]`, converts the raw owed amounts to
decimal (`tokensOwed / 10 ** decimals`), and values both tokens at the
hard-coded price of 1 USD.  The `feeGrowthGlobal` arguments are accepted
and ignored, as in the source. -/
def calculateUncollectedFees (tokensOwed0 tokensOwed1 : Nat)
    (feeGrowthGlobal0 feeGrowthGlobal1 : Nat) (decimals0 decimals1 : Int) :
    Option UncollectedFees :=
  if decimals0 < 0 ∨ decimals0 > 18 ∨ decimals1 < 0 ∨ decimals1 > 18 then none
  else
    let fees0 : ℚ := (tokensOwed0 : ℚ) / 10 ^ decimals0.toNat
    let fees1 : ℚ := (tokensOwed1 : ℚ) / 10 ^ decimals1.toNat
    let price0 : ℚ := 1
    let price1 : ℚ := 1
    some ⟨fees0, fees1, fees0 * price0 + fees1 * price1⟩

/-- Result object of `FeeCalculator.calculateRebalanceThreshold`.  The
JavaScript value `Infinity` for `daysToBreakeven` is modelled as `none`. -/
structure RebalanceThreshold where
  shouldRebalance : Bool
  daysToBreakeven : Option ℚ
deriving DecidableEq

/-- Embedding of `FeeCalculator.calculateRebalanceThreshold`: rejects
negative gas cost, negative daily fees or a non-positive multiplier;
returns `(false, Infinity)` when daily fees are zero; otherwise
`daysToBreakeven = gasCost / dailyFees` and rebalance is advised exactly
when that is at most the multiplier. -/
def calculateRebalanceThreshold (estimatedGasCost dailyFees thresholdMultiplier : ℚ) :
    Option RebalanceThreshold :=
  if estimatedGasCost < 0 ∨ dailyFees < 0 ∨ thresholdMultiplier ≤ 0 then none
  else if dailyFees = 0 then some ⟨false, none⟩
  else
    let daysToBreakeven := estimatedGasCost / dailyFees
    some ⟨decide (daysToBreakeven ≤ thresholdMultiplier), some daysToBreakeven⟩

end FeeCalculator

namespace EnhancedFeeCalculator

/-- The `Position` interface of `enhancedFeeCalculator.ts`. -/
structure Position where
  tickLower : Int
  tickUpper : Int
  liquidity : Nat
  tokensOwed0 : Nat
  tokensOwed1 : Nat
deriving DecidableEq

/-- Result object of `EnhancedFeeCalculator.calculateUncollectedFees`. -/
structure EnhancedUncollectedFees where
  token0 : ℚ
  token1 : ℚ
  token0Usd : ℚ
  token1Usd : ℚ
  totalUsd : ℚ
deriving DecidableEq

/-- Embedding of `EnhancedFeeCalculator.calculateUncollectedFees`.  The
two oracle price lookups are modelled as the parameters `price0`/`price1`
(the core computation proceeds only after both promises resolve).  Unlike
`FeeCalculator.calculateUncollectedFees`, the source performs NO
validation of the decimal counts, so the function is total; `10 ** d` is
the rational `10 ^ d` (an integer power, exact for the integer decimal
counts the claims quantify over). -/
def calculateUncollectedFees (position : Position) (decimals0 decimals1 : Int)
    (price0 price1 : ℚ) : EnhancedUncollectedFees :=
  let fees0 : ℚ := (position.tokensOwed0 : ℚ) / 10 ^ decimals0
  let fees1 : ℚ := (position.tokensOwed1 : ℚ) / 10 ^ decimals1
  let token0Usd := fees0 * price0
  let token1Usd := fees1 * price1
  ⟨fees0, fees1, token0Usd, token1Usd, token0Usd + token1Usd⟩

/-- Embedding of `EnhancedFeeCalculator.getPositionAmounts`: the three-way
case split on the current sqrt price against the range bounds. -/
def getPositionAmounts (liquidity sqrtPriceX96 sqrtPriceLowerX96 sqrtPriceUpperX96 : Nat) :
    Nat × Nat :=
  if sqrtPriceX96 ≤ sqrtPriceLowerX96 then
    (TickMath.getAmount0ForLiquidity sqrtPriceLowerX96 sqrtPriceUpperX96 liquidity, 0)
  else if sqrtPriceX96 ≥ sqrtPriceUpperX96 then
    (0, TickMath.getAmount1ForLiquidity sqrtPriceLowerX96 sqrtPriceUpperX96 liquidity)
  else
    (TickMath.getAmount0ForLiquidity sqrtPriceX96 sqrtPriceUpperX96 liquidity,
      TickMath.getAmount1ForLiquidity sqrtPriceLowerX96 sqrtPriceX96 liquidity)

/-- Embedding of `EnhancedFeeCalculator.sqrtPriceX96ToPrice`:
`(sqrtPriceX96 / 2^96)^2`, idealized as exact rational arithmetic. -/
def sqrtPriceX96ToPrice (sqrtPriceX96 : Nat) : ℚ :=
  let sqrtPrice : ℚ := (sqrtPriceX96 : ℚ) / (TickMath.Q96 : ℚ)
  sqrtPrice * sqrtPrice

/-- Result object of
`EnhancedFeeCalculator.calculateConcentratedImpermanentLoss`. -/
structure ILResult where
  impermanentLossPercent : ℚ
  token0Amount : ℚ
  token1Amount : ℚ
  initialValue : ℚ
  currentValue : ℚ
deriving DecidableEq

/-- Embedding of
`EnhancedFeeCalculator.calculateConcentratedImpermanentLoss`: converts the
position's tick bounds to sqrt prices (propagating their bounds errors),
computes the truncated token amounts at the initial and current sqrt
prices with the liquidity held fixed, values them in token0 terms, and
returns `(currentValue / holdValue - 1) * 100` when the hold value is
positive and `0` otherwise.  The `Number(...)` conversions of the source
are idealized as the exact casts into `ℚ`. -/
def calculateConcentratedImpermanentLoss (position : Position)
    (initialSqrtPriceX96 currentSqrtPriceX96 : Nat) : Option ILResult :=
  match TickMath.getSqrtPriceX96FromTick position.tickLower,
      TickMath.getSqrtPriceX96FromTick position.tickUpper with
  | some sqrtPriceLowerX96, some sqrtPriceUpperX96 =>
    let initialAmounts :=
      getPositionAmounts position.liquidity initialSqrtPriceX96 sqrtPriceLowerX96 sqrtPriceUpperX96
    let currentAmounts :=
      getPositionAmounts position.liquidity currentSqrtPriceX96 sqrtPriceLowerX96 sqrtPriceUpperX96
    let initialPrice := sqrtPriceX96ToPrice initialSqrtPriceX96
    let initialValue : ℚ := (initialAmounts.1 : ℚ) + (initialAmounts.2 : ℚ) * initialPrice
    let currentPrice := sqrtPriceX96ToPrice currentSqrtPriceX96
    let holdValue : ℚ := (initialAmounts.1 : ℚ) + (initialAmounts.2 : ℚ) * currentPrice
    let currentValue : ℚ := (currentAmounts.1 : ℚ) + (currentAmounts.2 : ℚ) * currentPrice
    let impermanentLossPercent : ℚ :=
      if 0 < holdValue then (currentValue / holdValue - 1) * 100 else 0
    some ⟨impermanentLossPercent, (currentAmounts.1 : ℚ), (currentAmounts.2 : ℚ),
      initialValue, currentValue⟩
  | _, _ => none

end EnhancedFeeCalculator

namespace RebalanceStrategy

/-- Reason codes of a `RebalanceDecision` (strings in the source). -/
inductive Reason where
  | OUT_OF_RANGE
  | TIME_CAP_EXCEEDED
  | ECONOMIC_TRIGGER
  | NONE
deriving DecidableEq

/-- Urgency levels of a `RebalanceDecision`. -/
inductive Urgency where
  | HIGH
  | MEDIUM
  | LOW
deriving DecidableEq

/-- The `StrategyConfig` interface of `rebalanceStrategy.ts`. -/
structure StrategyConfig where
  bandBasisPoints : Int
  timeCapHours : ℚ
  feeGasMultiple : ℚ
  estimatedGasCostUsd : ℚ
deriving DecidableEq

/-- The `PoolState` fields consumed by the strategy engine. -/
structure PoolState where
  tick : Int
  sqrtPriceX96 : Nat
  liquidity : Nat
  feeGrowthGlobal0X128 : Nat
  feeGrowthGlobal1X128 : Nat
  timestamp : Int
deriving DecidableEq

/-- The `PositionState` fields consumed by the strategy engine (the string
`tokenId` is modelled as an opaque numeric identifier). -/
structure PositionState where
  tickLower : Int
  tickUpper : Int
  liquidity : Nat
  tokensOwed0 : Nat
  tokensOwed1 : Nat
  tokenId : Nat
  isInRange : Bool
deriving DecidableEq

/-- The `RebalanceDecision` output object of `RebalanceStrategy.evaluate`. -/
structure RebalanceDecision where
  shouldRebalance : Bool
  reason : Reason
  urgency : Urgency
  positionId : Nat
  currentTick : Int
  positionRange : BandCalculator.Band
  newRange : Option BandCalculator.Band
  fees : FeeCalculator.UncollectedFees
  estimatedGasCostUsd : ℚ
  profitMultiple : ℚ
  timestamp : Int
deriving DecidableEq

/-- Embedding of `RebalanceStrategy.determineReason`: first true condition
in the fixed order OUT_OF_RANGE, TIME_CAP_EXCEEDED, ECONOMIC_TRIGGER,
NONE. -/
def determineReason (outOfRange timeCap economic : Bool) : Reason :=
  if outOfRange then .OUT_OF_RANGE
  else if timeCap then .TIME_CAP_EXCEEDED
  else if economic then .ECONOMIC_TRIGGER
  else .NONE

/-- Embedding of `RebalanceStrategy.calculateUrgency`; `hoursSince` is
`none` for the JavaScript value `Infinity` (no previous decision), for
which `hoursSince > 20` is true. -/
def calculateUrgency (outOfRange : Bool) (hoursSince : Option ℚ) : Urgency :=
  if outOfRange then .HIGH
  else
    match hoursSince with
    | none => .MEDIUM
    | some h => if h > 20 then .MEDIUM else .LOW

/-- Embedding of `RebalanceStrategy.evaluate`.  `now` models `Date.now()`
(milliseconds); `lastRebalance = none` makes `hoursSinceRebalance`
infinite, modelled as `none`.  The fee computation uses the default
decimal counts (6, 6) and the default tick spacing 1 for the new band, as
in the source; a failure of either downstream call propagates as `none`.
The rational division `totalUsd / estimatedGasCostUsd` agrees with the
source's floating division whenever the configured gas cost is nonzero
(the deployed default is 2). -/
def evaluate (config : StrategyConfig) (poolState : PoolState)
    (positionState : PositionState) (lastRebalance : Option RebalanceDecision)
    (now : Int) : Option RebalanceDecision :=
  let isOutOfRange := !positionState.isInRange
  let hoursSinceRebalance : Option ℚ :=
    lastRebalance.map (fun d => ((now - d.timestamp : Int) : ℚ) / (1000 * 60 * 60))
  let timeCapExceeded :=
    match hoursSinceRebalance with
    | none => true
    | some h => decide (h > config.timeCapHours)
  match FeeCalculator.calculateUncollectedFees positionState.tokensOwed0
      positionState.tokensOwed1 poolState.feeGrowthGlobal0X128
      poolState.feeGrowthGlobal1X128 6 6 with
  | none => none
  | some fees =>
    let profitMultiple := fees.totalUsd / config.estimatedGasCostUsd
    let economicTrigger := decide (profitMultiple ≥ config.feeGasMultiple)
    let shouldRebalance := isOutOfRange || timeCapExceeded || economicTrigger
    let mkDecision : Option BandCalculator.Band → RebalanceDecision := fun newRange =>
      { shouldRebalance := shouldRebalance
        reason := determineReason isOutOfRange timeCapExceeded economicTrigger
        urgency := calculateUrgency isOutOfRange hoursSinceRebalance
        positionId := positionState.tokenId
        currentTick := poolState.tick
        positionRange := ⟨positionState.tickLower, positionState.tickUpper⟩
        newRange := newRange
        fees := fees
        estimatedGasCostUsd := config.estimatedGasCostUsd
        profitMultiple := profitMultiple
        timestamp := now }
    if shouldRebalance then
      match BandCalculator.calculateBand poolState.tick config.bandBasisPoints 1 with
      | none => none
      | some band => some (mkDecision (some band))
    else some (mkDecision none)

/-- The time-cap trigger of `RebalanceStrategy.evaluate`, as a
proposition: vacuously true with no previous decision (infinite hours),
otherwise the elapsed hours exceed the configured cap. -/
def timeCapExceededCond (config : StrategyConfig)
    (lastRebalance : Option RebalanceDecision) (now : Int) : Prop :=
  ∀ p, lastRebalance = some p →
    ((now - p.timestamp : Int) : ℚ) / (1000 * 60 * 60) > config.timeCapHours

/-- The economic trigger of `RebalanceStrategy.evaluate`, as a
proposition: the uncollected fees (at the default 6/6 decimals and 1 USD
prices) divided by the estimated gas cost reach the configured
fee/gas multiple. -/
def economicTriggerCond (config : StrategyConfig) (positionState : PositionState) : Prop :=
  ((positionState.tokensOwed0 : ℚ) / 10 ^ 6 * 1 + (positionState.tokensOwed1 : ℚ) / 10 ^ 6 * 1) /
      config.estimatedGasCostUsd ≥ config.feeGasMultiple

end RebalanceStrategy

/-- Example configuration for exercising the strategy engine: the
documented defaults (band 10 bps, 24 h time cap, 3× fee/gas multiple,
2 USD gas). -/
def exampleConfig : RebalanceStrategy.StrategyConfig := ⟨10, 24, 3, 2⟩

/-- Example pool snapshot at tick 2000 (out of the example position's
range). -/
def examplePool : RebalanceStrategy.PoolState := ⟨2000, 0, 0, 0, 0, 0⟩

/-- Example monitored position with range [-1000, 1000), marked out of
range, with 12 USD of uncollected token0 fees (12,000,000 raw at 6
decimals) — enough for the economic trigger at the default config. -/
def examplePosition : RebalanceStrategy.PositionState :=
  ⟨-1000, 1000, 0, 12000000, 0, 1, false⟩

/-- Example previous decision taken at timestamp 0 (12 hours before the
example evaluation time). -/
def examplePrevDecision : RebalanceStrategy.RebalanceDecision :=
  ⟨false, .NONE, .LOW, 1, 0, ⟨-1000, 1000⟩, none, ⟨0, 0, 0⟩, 2, 0, 0⟩

/-- Example evaluation time: 12 hours (in milliseconds) after the
previous decision. -/
def exampleNow : Int := 43200000

/-- Helper: `FeeCalculator.calculateUncollectedFees` at the default valid
decimal counts (6, 6) always succeeds, with both prices 1 USD. -/
theorem calculateUncollectedFees_six_six (tokensOwed0 tokensOwed1 fg0 fg1 : Nat) :
    FeeCalculator.calculateUncollectedFees tokensOwed0 tokensOwed1 fg0 fg1 6 6 =
      some ⟨(tokensOwed0 : ℚ) / 10 ^ 6, (tokensOwed1 : ℚ) / 10 ^ 6,
        (tokensOwed0 : ℚ) / 10 ^ 6 * 1 + (tokensOwed1 : ℚ) / 10 ^ 6 * 1⟩ := by
  simp [FeeCalculator.calculateUncollectedFees]

/-- C9: `TickMath.getSqrtPriceX96FromTick 0` returns exactly `2 ^ 96`
(the Q96 unit value). -/
theorem c9_sqrtPrice_at_tick_zero :
    TickMath.getSqrtPriceX96FromTick 0 = some TickMath.Q96 := by
  decide

/-- C1: the claim that the sqrt price is strictly positive and strictly
monotonically increasing in the tick FAILS on the code: because every
magic-constant multiplication in `getSqrtPriceX96FromTick` is gated on
`absTick` being odd (the `absTick & 0xN !== 0` precedence slip), ticks 0
and 2 both map to exactly `2 ^ 96`, so the function is not strictly
increasing between the valid ticks 0 < 2. -/
theorem c1_sqrtPrice_not_strictly_monotone :
    TickMath.getSqrtPriceX96FromTick 0 = some (2 ^ 96) ∧
    TickMath.getSqrtPriceX96FromTick 2 = some (2 ^ 96) ∧
    ¬ (∀ t1 t2 : Int, TickMath.MIN_TICK ≤ t1 → t1 < t2 → t2 ≤ TickMath.MAX_TICK →
        ∀ v1 v2 : Nat, TickMath.getSqrtPriceX96FromTick t1 = some v1 →
          TickMath.getSqrtPriceX96FromTick t2 = some v2 → 0 < v1 ∧ v1 < v2) := by
  refine ⟨by decide, by decide, fun h => ?_⟩
  have h2 := h 0 2 (by decide) (by decide) (by decide) (2 ^ 96) (2 ^ 96)
    (by decide) (by decide)
  exact absurd h2.2 (lt_irrefl _)

/-- C2: the claim that the tick→sqrt-price→tick round trip is within 1
tick FAILS on the code: tick 2 maps forward to exactly `2 ^ 96` (the
precedence slip makes every even non-negative tick collapse to the tick-0
value), and the inverse maps `2 ^ 96` back to tick 0, a round-trip error
of 2. -/
theorem c2_roundTrip_not_within_one :
    TickMath.getSqrtPriceX96FromTick 2 = some (2 ^ 96) ∧
    TickMath.getTickFromSqrtPriceX96 (2 ^ 96) = some 0 ∧
    ¬ (∀ t : Int, TickMath.MIN_TICK ≤ t → t ≤ TickMath.MAX_TICK →
        ∀ s : Nat, ∀ t2 : Int, TickMath.getSqrtPriceX96FromTick t = some s →
          TickMath.getTickFromSqrtPriceX96 s = some t2 → (t2 - t).natAbs ≤ 1) := by
  refine ⟨by decide, by decide, fun h => ?_⟩
  have h2 := h 2 (by decide) (by decide) (2 ^ 96) 0 (by decide) (by decide)
  exact absurd h2 (by decide)

/-- C5: `calculateBand` returns the raw bounds `currentTick ∓
floor(basisPoints/2)` aligned down (lower) and up (upper) to multiples of
`tickSpacing`, and fails exactly when `basisPoints ≤ 0`, when
`tickSpacing` is not one of {1, 10, 60, 200}, or when the aligned bounds
collapse (`tickLower ≥ tickUpper`); in particular
`calculateBand 5 100 10 = {tickLower := -50, tickUpper := 60}`.  The
alignment is stated semantically: the lower bound is the greatest multiple
of `tickSpacing` that is at most the raw lower bound, and the upper bound
is the least multiple that is at least the raw upper bound. -/
theorem c5_calculateBand_spec :
    (∀ ct bp ts : Int,
      BandCalculator.calculateBand ct bp ts = none ↔
        bp ≤ 0 ∨ ¬(ts = 1 ∨ ts = 10 ∨ ts = 60 ∨ ts = 200) ∨
          (-Int.fdiv (-(ct + Int.fdiv bp 2)) ts) * ts ≤
            Int.fdiv (ct - Int.fdiv bp 2) ts * ts) ∧
    (∀ ct bp ts : Int, ∀ b : BandCalculator.Band,
      BandCalculator.calculateBand ct bp ts = some b →
        (ts ∣ b.tickLower ∧ b.tickLower ≤ ct - Int.fdiv bp 2 ∧
          ct - Int.fdiv bp 2 < b.tickLower + ts) ∧
        (ts ∣ b.tickUpper ∧ ct + Int.fdiv bp 2 ≤ b.tickUpper ∧
          b.tickUpper - ts < ct + Int.fdiv bp 2) ∧
        b.tickLower < b.tickUpper) ∧
    BandCalculator.calculateBand 5 100 10 = some ⟨-50, 60⟩ := by
  refine ⟨fun ct bp ts => ?_, fun ct bp ts b h => ?_, by decide⟩
  · unfold BandCalculator.calculateBand
    split_ifs with h1 h2 <;> simp_all
  · simp only [BandCalculator.calculateBand] at h
    split_ifs at h with h1 h2 h3
    simp only [Option.some.injEq] at h
    subst h
    dsimp only
    rcases not_not.mp (by simpa using h2) with rfl | rfl | rfl | rfl <;>
      rw [Int.fdiv_eq_ediv _ (by norm_num), Int.fdiv_eq_ediv _ (by norm_num),
        Int.fdiv_eq_ediv _ (by norm_num)] at * <;>
      refine ⟨⟨dvd_mul_left _ _, by omega, by omega⟩,
        ⟨dvd_mul_left _ _, by omega, by omega⟩, by omega⟩

/-- C5 witness: the theorem applied at the concrete input (5, 100, 10),
whose band is {-50, 60}. -/
theorem c5_calculateBand_spec_witness :
    ((10 : Int) ∣ (-50 : Int) ∧ (-50 : Int) ≤ 5 - Int.fdiv 100 2 ∧
      5 - Int.fdiv 100 2 < -50 + 10) ∧
    ((10 : Int) ∣ (60 : Int) ∧ 5 + Int.fdiv 100 2 ≤ 60 ∧
      (60 : Int) - 10 < 5 + Int.fdiv 100 2) ∧
    (-50 : Int) < 60 := by
  have h := c5_calculateBand_spec.2.1 5 100 10 ⟨-50, 60⟩ c5_calculateBand_spec.2.2
  exact h

/-- C6 counterexample: `BandCalculator.calculateBand` does NOT fail on an
out-of-bounds center tick — at `currentTick = 2000000 > MAX_TICK` it
returns a band, contradicting the claim that every core operation taking
a tick fails outside the bounds. -/
theorem c6_counterexample :
    (2000000 : Int) > TickMath.MAX_TICK ∧
    BandCalculator.calculateBand 2000000 100 10 = some ⟨1999950, 2000050⟩ := by
  exact ⟨by decide, by decide⟩

/-- C6 (amended): `TickMath.tickToPrice` and
`TickMath.getSqrtPriceX96FromTick` fail on every tick outside
`[MIN_TICK, MAX_TICK]`; `BandCalculator.calculateBand` performs no bounds
check on its center tick and is excluded. -/
theorem c6_tick_ops_fail_out_of_bounds :
    ∀ t : Int, (t < TickMath.MIN_TICK ∨ t > TickMath.MAX_TICK) →
      TickMath.tickToPrice t = none ∧ TickMath.getSqrtPriceX96FromTick t = none := by
  intro t h
  constructor
  · unfold TickMath.tickToPrice
    rw [if_pos h]
  · unfold TickMath.getSqrtPriceX96FromTick
    rw [if_pos h]

/-- C6 witness: the amended theorem applied at tick 887273, one past
`MAX_TICK`. -/
theorem c6_tick_ops_fail_out_of_bounds_witness :
    TickMath.tickToPrice 887273 = none ∧
    TickMath.getSqrtPriceX96FromTick 887273 = none := by
  exact c6_tick_ops_fail_out_of_bounds 887273 (by decide)

/-- C10: whenever `calculateBand` succeeds, the returned band contains the
center tick under the half-open convention: `isInRange currentTick
tickLower tickUpper` is true. -/
theorem c10_band_contains_center :
    ∀ ct bp ts : Int, ∀ b : BandCalculator.Band,
      BandCalculator.calculateBand ct bp ts = some b →
        BandCalculator.isInRange ct b.tickLower b.tickUpper = true := by
  intro ct bp ts b h
  simp only [BandCalculator.calculateBand] at h
  split_ifs at h with h1 h2 h3
  simp only [Option.some.injEq] at h
  subst h
  simp only [BandCalculator.isInRange, Bool.and_eq_true, decide_eq_true_eq,
    ge_iff_le]
  rcases not_not.mp (by simpa using h2) with rfl | rfl | rfl | rfl <;>
    rw [Int.fdiv_eq_ediv _ (by norm_num), Int.fdiv_eq_ediv _ (by norm_num),
      Int.fdiv_eq_ediv _ (by norm_num)] at * <;>
    constructor <;> omega

/-- C10 witness: the theorem applied at the concrete input (5, 100, 10),
whose band {-50, 60} contains the center tick 5. -/
theorem c10_band_contains_center_witness :
    BandCalculator.isInRange 5 (-50) 60 = true := by
  exact c10_band_contains_center 5 100 10 ⟨-50, 60⟩ (by decide)

/-- C8: for non-negative gas cost, non-negative daily fees and a positive
multiplier, `calculateRebalanceThreshold` succeeds; `daysToBreakeven` is
`gasCost / dailyFees` (infinite — modelled `none` — when daily fees are
zero), and rebalancing is advised exactly when the breakeven time is
finite and at most the multiplier; in particular (30, 20, 3) yields
(true, 1.5). -/
theorem c8_rebalanceThreshold_spec :
    (∀ gas daily mult : ℚ, 0 ≤ gas → 0 ≤ daily → 0 < mult →
      ∃ r : FeeCalculator.RebalanceThreshold,
        FeeCalculator.calculateRebalanceThreshold gas daily mult = some r ∧
        r.daysToBreakeven = (if daily = 0 then none else some (gas / daily)) ∧
        (r.shouldRebalance = true ↔ daily ≠ 0 ∧ gas / daily ≤ mult)) ∧
    FeeCalculator.calculateRebalanceThreshold 30 20 3 = some ⟨true, some (3 / 2)⟩ := by
  constructor
  · intro gas daily mult hgas hdaily hmult
    have hcond : ¬(gas < 0 ∨ daily < 0 ∨ mult ≤ 0) := by
      push_neg
      exact ⟨hgas, hdaily, hmult⟩
    unfold FeeCalculator.calculateRebalanceThreshold
    rw [if_neg hcond]
    by_cases hd : daily = 0
    · rw [if_pos hd]
      exact ⟨⟨false, none⟩, rfl, by simp [hd], by simp [hd]⟩
    · rw [if_neg hd]
      exact ⟨_, rfl, by simp [hd], by simp [hd]⟩
  · unfold FeeCalculator.calculateRebalanceThreshold
    norm_num

/-- C8 witness: the theorem applied at the scenario (30, 20, 3). -/
theorem c8_rebalanceThreshold_spec_witness :
    ∃ r : FeeCalculator.RebalanceThreshold,
      FeeCalculator.calculateRebalanceThreshold 30 20 3 = some r ∧
      r.daysToBreakeven = (if (20 : ℚ) = 0 then none else some (30 / 20)) ∧
      (r.shouldRebalance = true ↔ (20 : ℚ) ≠ 0 ∧ (30 : ℚ) / 20 ≤ 3) := by
  exact c8_rebalanceThreshold_spec.1 30 20 3 (by norm_num) (by norm_num) (by norm_num)

/-- C7 counterexample: `EnhancedFeeCalculator.calculateUncollectedFees`
does NOT fail on a decimal count outside [0, 18] — at `decimals0 = 19` it
succeeds and returns scaled amounts, contradicting the claim that the
uncollected-fees computation fails whenever a declared decimal count is
outside [0, 18]. -/
theorem c7_counterexample :
    ¬((19 : Int) ≤ 18) ∧
    EnhancedFeeCalculator.calculateUncollectedFees ⟨0, 0, 0, 10 ^ 19, 0⟩ 19 6 1 1 =
      ⟨1, 0, 1, 0, 1⟩ := by
  refine ⟨by decide, ?_⟩
  unfold EnhancedFeeCalculator.calculateUncollectedFees
  norm_num

/-- C7 (amended): `FeeCalculator.calculateUncollectedFees` fails exactly
when a declared decimal count is outside [0, 18] and otherwise returns
the owed amounts scaled by `10^decimals`, valued at 1 USD each;
`EnhancedFeeCalculator.calculateUncollectedFees` performs no decimals
validation and always returns the scaled amounts with their oracle-priced
USD values. -/
theorem c7_decimals_validation :
    (∀ owed0 owed1 fg0 fg1 : Nat, ∀ d0 d1 : Int,
      (FeeCalculator.calculateUncollectedFees owed0 owed1 fg0 fg1 d0 d1 = none ↔
        d0 < 0 ∨ d0 > 18 ∨ d1 < 0 ∨ d1 > 18) ∧
      (0 ≤ d0 → d0 ≤ 18 → 0 ≤ d1 → d1 ≤ 18 →
        FeeCalculator.calculateUncollectedFees owed0 owed1 fg0 fg1 d0 d1 =
          some ⟨(owed0 : ℚ) / 10 ^ d0.toNat, (owed1 : ℚ) / 10 ^ d1.toNat,
            (owed0 : ℚ) / 10 ^ d0.toNat * 1 + (owed1 : ℚ) / 10 ^ d1.toNat * 1⟩)) ∧
    (∀ pos : EnhancedFeeCalculator.Position, ∀ d0 d1 : Int, ∀ p0 p1 : ℚ,
      EnhancedFeeCalculator.calculateUncollectedFees pos d0 d1 p0 p1 =
        ⟨(pos.tokensOwed0 : ℚ) / 10 ^ d0, (pos.tokensOwed1 : ℚ) / 10 ^ d1,
          (pos.tokensOwed0 : ℚ) / 10 ^ d0 * p0, (pos.tokensOwed1 : ℚ) / 10 ^ d1 * p1,
          (pos.tokensOwed0 : ℚ) / 10 ^ d0 * p0 + (pos.tokensOwed1 : ℚ) / 10 ^ d1 * p1⟩) := by
  refine ⟨fun owed0 owed1 fg0 fg1 d0 d1 => ⟨?_, fun h0 h0' h1 h1' => ?_⟩,
    fun pos d0 d1 p0 p1 => rfl⟩
  · unfold FeeCalculator.calculateUncollectedFees
    split_ifs with h <;> simp_all
  · unfold FeeCalculator.calculateUncollectedFees
    rw [if_neg (by push_neg; exact ⟨h0, by omega, h1, by omega⟩)]

/-- C7 witness: the amended theorem applied at the scenario
(1,000,000 and 2,000,000 raw owed, 6 decimals each): 1 and 2 tokens,
3 USD total. -/
theorem c7_decimals_validation_witness :
    FeeCalculator.calculateUncollectedFees 1000000 2000000 0 0 6 6 = some ⟨1, 2, 3⟩ := by
  have h := (c7_decimals_validation.1 1000000 2000000 0 0 6 6).2
    (by norm_num) (by norm_num) (by norm_num) (by norm_num)
  rw [h]
  norm_num [show (6 : Int).toNat = 6 from rfl]

/-- C3 counterexample: the strict-negativity part of the impermanent-loss
claim FAILS on the code.  For the position (tickLower 1, tickUpper 2,
liquidity 1), the sqrt-price bounds are 1350520 and `2 ^ 96`; the initial
price `3 * 2 ^ 94` and the current price `2 ^ 95` are distinct and both
strictly inside those bounds, yet the truncated initial token amounts are
both zero, making the hold value zero, so the code returns an impermanent
loss of exactly 0 instead of a strictly negative value. -/
theorem c3_counterexample :
    TickMath.getSqrtPriceX96FromTick 1 = some 1350520 ∧
    TickMath.getSqrtPriceX96FromTick 2 = some (2 ^ 96) ∧
    (1350520 : Nat) < 3 * 2 ^ 94 ∧ (3 * 2 ^ 94 : Nat) < 2 ^ 96 ∧
    (1350520 : Nat) < 2 ^ 95 ∧ (2 ^ 95 : Nat) < 2 ^ 96 ∧
    (3 * 2 ^ 94 : Nat) ≠ 2 ^ 95 ∧
    (EnhancedFeeCalculator.calculateConcentratedImpermanentLoss
        ⟨1, 2, 1, 0, 0⟩ (3 * 2 ^ 94) (2 ^ 95)).map
      EnhancedFeeCalculator.ILResult.impermanentLossPercent = some 0 := by
  refine ⟨by decide, by decide, by decide, by decide, by decide, by decide, by decide, ?_⟩
  have hL : TickMath.getSqrtPriceX96FromTick 1 = some 1350520 := by decide
  have hU : TickMath.getSqrtPriceX96FromTick 2 = some (2 ^ 96) := by decide
  have hIA : EnhancedFeeCalculator.getPositionAmounts 1 (3 * 2 ^ 94) 1350520 (2 ^ 96) =
      (0, 0) := by decide
  have hCA : EnhancedFeeCalculator.getPositionAmounts 1 (2 ^ 95) 1350520 (2 ^ 96) =
      (1, 0) := by decide
  simp only [EnhancedFeeCalculator.calculateConcentratedImpermanentLoss, hL, hU, hIA, hCA]
  norm_num

/-- C3 (amended): `calculateConcentratedImpermanentLoss` returns an
impermanent loss of exactly 0 whenever the initial and current sqrt
prices are equal, for every position with in-bounds ticks; the claimed
strict negativity for in-range price moves does not hold in general,
because the truncated token amounts can make the hold value zero. -/
theorem c3_il_zero_when_price_unchanged :
    ∀ (pos : EnhancedFeeCalculator.Position) (s : Nat),
      TickMath.MIN_TICK ≤ pos.tickLower → pos.tickLower ≤ TickMath.MAX_TICK →
      TickMath.MIN_TICK ≤ pos.tickUpper → pos.tickUpper ≤ TickMath.MAX_TICK →
      (EnhancedFeeCalculator.calculateConcentratedImpermanentLoss pos s s).map
        EnhancedFeeCalculator.ILResult.impermanentLossPercent = some 0 := by
  intro pos s hl1 hl2 hu1 hu2
  have hlow : TickMath.getSqrtPriceX96FromTick pos.tickLower =
      some (TickMath.sqrtRatioAtTick pos.tickLower) := by
    unfold TickMath.getSqrtPriceX96FromTick
    rw [if_neg (by push_neg; omega)]
  have hup : TickMath.getSqrtPriceX96FromTick pos.tickUpper =
      some (TickMath.sqrtRatioAtTick pos.tickUpper) := by
    unfold TickMath.getSqrtPriceX96FromTick
    rw [if_neg (by push_neg; omega)]
  simp only [EnhancedFeeCalculator.calculateConcentratedImpermanentLoss, hlow, hup,
    Option.map_some']
  congr 1
  split_ifs with h
  · rw [div_self (ne_of_gt h)]
    ring
  · rfl

/-- C3 witness: the amended theorem applied at a concrete position with
ticks [-2, 2], liquidity 5, and equal initial/current sqrt price
`2 ^ 96`. -/
theorem c3_il_zero_when_price_unchanged_witness :
    (EnhancedFeeCalculator.calculateConcentratedImpermanentLoss
        ⟨-2, 2, 5, 0, 0⟩ (2 ^ 96) (2 ^ 96)).map
      EnhancedFeeCalculator.ILResult.impermanentLossPercent = some 0 := by
  exact c3_il_zero_when_price_unchanged ⟨-2, 2, 5, 0, 0⟩ (2 ^ 96)
    (by decide) (by decide) (by decide) (by decide)

/-- C4: the reason of every decision produced by
`RebalanceStrategy.evaluate` is the first true condition in the fixed
order OUT_OF_RANGE, TIME_CAP_EXCEEDED, ECONOMIC_TRIGGER, NONE; in
particular an out-of-range position yields OUT_OF_RANGE even when the
time-cap or economic trigger is simultaneously true. -/
theorem c4_reason_precedence :
    ∀ (config : RebalanceStrategy.StrategyConfig) (pool : RebalanceStrategy.PoolState)
      (pos : RebalanceStrategy.PositionState)
      (last : Option RebalanceStrategy.RebalanceDecision) (now : Int)
      (d : RebalanceStrategy.RebalanceDecision),
      RebalanceStrategy.evaluate config pool pos last now = some d →
      ((pos.isInRange = false → d.reason = .OUT_OF_RANGE) ∧
       (pos.isInRange = true → RebalanceStrategy.timeCapExceededCond config last now →
         d.reason = .TIME_CAP_EXCEEDED) ∧
       (pos.isInRange = true → ¬ RebalanceStrategy.timeCapExceededCond config last now →
         RebalanceStrategy.economicTriggerCond config pos →
         d.reason = .ECONOMIC_TRIGGER) ∧
       (pos.isInRange = true → ¬ RebalanceStrategy.timeCapExceededCond config last now →
         ¬ RebalanceStrategy.economicTriggerCond config pos →
         d.reason = .NONE)) := by
  intro config pool pos last now d h
  have htc : (match last.map
        (fun p => ((now - p.timestamp : Int) : ℚ) / (1000 * 60 * 60)) with
      | none => true
      | some hrs => decide (hrs > config.timeCapHours)) = true ↔
      RebalanceStrategy.timeCapExceededCond config last now := by
    cases last with
    | none => simp [RebalanceStrategy.timeCapExceededCond]
    | some p =>
      simp only [Option.map_some', decide_eq_true_eq,
        RebalanceStrategy.timeCapExceededCond]
      constructor
      · intro hgt q hq
        cases hq
        exact hgt
      · intro hall
        exact hall p rfl
  have hec : (decide (((pos.tokensOwed0 : ℚ) / 10 ^ 6 * 1 + (pos.tokensOwed1 : ℚ) / 10 ^ 6 * 1) /
        config.estimatedGasCostUsd ≥ config.feeGasMultiple) = true) ↔
      RebalanceStrategy.economicTriggerCond config pos := by
    simp [RebalanceStrategy.economicTriggerCond]
  simp only [RebalanceStrategy.evaluate, calculateUncollectedFees_six_six] at h
  have hreason : d.reason = RebalanceStrategy.determineReason (!pos.isInRange)
      (match last.map
          (fun p => ((now - p.timestamp : Int) : ℚ) / (1000 * 60 * 60)) with
        | none => true
        | some hrs => decide (hrs > config.timeCapHours))
      (decide (((pos.tokensOwed0 : ℚ) / 10 ^ 6 * 1 + (pos.tokensOwed1 : ℚ) / 10 ^ 6 * 1) /
          config.estimatedGasCostUsd ≥ config.feeGasMultiple)) := by
    split at h
    · split at h
      · exact Option.noConfusion h
      · simp only [Option.some.injEq] at h
        subst h
        rfl
    · simp only [Option.some.injEq] at h
      subst h
      rfl
  generalize hT : (match last.map
      (fun p => ((now - p.timestamp : Int) : ℚ) / (1000 * 60 * 60)) with
    | none => true
    | some hrs => decide (hrs > config.timeCapHours)) = tcB at hreason htc
  generalize hE : (decide (((pos.tokensOwed0 : ℚ) / 10 ^ 6 * 1 +
      (pos.tokensOwed1 : ℚ) / 10 ^ 6 * 1) /
        config.estimatedGasCostUsd ≥ config.feeGasMultiple)) = ecB at hreason hec
  refine ⟨fun hoor => ?_, fun hir htcc => ?_, fun hir htcc hecc => ?_,
    fun hir htcc hecc => ?_⟩
  · rw [hreason, hoor]
    rfl
  · rw [hreason, hir, htc.mpr htcc]
    rfl
  · have h1 : tcB = false := by
      cases tcB with
      | false => rfl
      | true => exact absurd (htc.mp rfl) htcc
    rw [hreason, hir, h1, hec.mpr hecc]
    rfl
  · have h1 : tcB = false := by
      cases tcB with
      | false => rfl
      | true => exact absurd (htc.mp rfl) htcc
    have h2 : ecB = false := by
      cases ecB with
      | false => rfl
      | true => exact absurd (hec.mp rfl) hecc
    rw [hreason, hir, h1, h2]
    rfl

/-- C4 witness: at the scenario inputs (position [-1000, 1000) marked out
of range at pool tick 2000, previous decision 12 hours old against a
24-hour cap, fees sufficient for the economic trigger) the evaluation
succeeds and the theorem forces reason OUT_OF_RANGE. -/
theorem c4_reason_precedence_witness :
    RebalanceStrategy.economicTriggerCond exampleConfig examplePosition ∧
    ¬ RebalanceStrategy.timeCapExceededCond exampleConfig (some examplePrevDecision)
        exampleNow ∧
    (RebalanceStrategy.evaluate exampleConfig examplePool examplePosition
        (some examplePrevDecision) exampleNow).map RebalanceStrategy.RebalanceDecision.reason =
      some .OUT_OF_RANGE := by
  refine ⟨?_, ?_, ?_⟩
  · unfold RebalanceStrategy.economicTriggerCond examplePosition exampleConfig
    norm_num
  · unfold RebalanceStrategy.timeCapExceededCond exampleConfig exampleNow
      examplePrevDecision
    intro hall
    have h := hall _ rfl
    norm_num at h
  · have hs : (RebalanceStrategy.evaluate exampleConfig examplePool examplePosition
        (some examplePrevDecision) exampleNow).isSome = true := by
      simp only [RebalanceStrategy.evaluate, calculateUncollectedFees_six_six,
        examplePosition, examplePool, exampleConfig, examplePrevDecision, exampleNow,
        Bool.not_false, Bool.true_or]
      rw [if_pos trivial,
        show BandCalculator.calculateBand 2000 10 1 = some ⟨1995, 2005⟩ from by decide]
      rfl
    obtain ⟨d, hd⟩ := Option.isSome_iff_exists.mp hs
    rw [hd, Option.map_some']
    have h := (c4_reason_precedence exampleConfig examplePool examplePosition
      (some examplePrevDecision) exampleNow d hd).1 rfl
    rw [h]
